import Mathlib

/-!
Verification development for the backtesting engine of this repository.

Shallow embedding conventions:
* Python floats are modelled as exact rationals; decimal literals from the
  source become the corresponding rationals (0.75 becomes 3/4, and so on).
* numpy arrays become lists of rationals; numpy elementwise operations become
  zipWith/map; np.mean of a list l is l.sum / l.length.
* np.sqrt has no rational counterpart, so every function whose source calls
  np.std or np.sqrt is parameterized by a square-root function sq; none of
  the properties verified here depend on its values.
* Partial numpy indexing (which raises IndexError out of range) is modelled
  with Option: a none result marks a raised exception.
* The PPO policy model and its TradingEnv observation pipeline are external
  inference components (stable_baselines3); the loaded model is modelled as
  an abstract function from the engine balance and the bar window to an
  optional signal record, mirroring _generate_bot_signal after its
  "if not self.model" guard.
* String interpolation of numeric values inside human-readable reason
  messages is elided: the surrounding constant text is kept.

Sources embedded:
* src/trading-app/backend/api/indicators.py (class TechnicalIndicators)
* src/trading-app/backend/ml/backtest.py   (class BacktestEngine)
-/

namespace WebTrading

/-- One OHLCV bar as consumed by the backtest engine (api/topstep.py
HistoricalBar, with the time field the engine reads). -/
structure TopstepBar where
  open' : ℚ
  high : ℚ
  low : ℚ
  close : ℚ
  volume : ℤ
  time : String
deriving DecidableEq, Inhabited

/-- np.mean of a list of rationals. -/
def npMean (l : List ℚ) : ℚ := l.sum / (l.length : ℚ)

/-- Last element of an array, Python index -1 (callers guarantee the array
is long enough; the default is never reached on guarded paths). -/
def idxLast (l : List ℚ) : ℚ := l.getD (l.length - 1) 0

/-- Second to last element of an array, Python index -2. -/
def idxPrev (l : List ℚ) : ℚ := l.getD (l.length - 2) 0

/-- Position side: every cast indicator vote is LONG or SHORT. -/
inductive Side where
  | LONG
  | SHORT
deriving DecidableEq, BEq, Inhabited

/-- Directional value of a generated signal. -/
inductive Dir3 where
  | LONG
  | SHORT
  | NEUTRAL
deriving DecidableEq, BEq, Inhabited

namespace TechnicalIndicators

/-- Recurrence ema[i] = alpha * data[i] + (1 - alpha) * ema[i-1] from
calculate_ema, starting after the seed value. -/
def emaGo (alpha : ℚ) : ℚ → List ℚ → List ℚ
  | _, [] => []
  | prev, x :: xs =>
    let v := alpha * x + (1 - alpha) * prev
    v :: emaGo alpha v xs

/-- TechnicalIndicators.calculate_ema: returns data unchanged when shorter
than the period, otherwise exponential smoothing seeded with data[0] and
alpha = 2 / (period + 1). -/
def calculate_ema (data : List ℚ) (period : ℕ) : List ℚ :=
  if data.length < period then data
  else
    match data with
    | [] => []
    | x :: xs => x :: emaGo (2 / ((period : ℚ) + 1)) x xs

/-- Trailing-window mean data[i - period + 1 : i + 1] used by
calculate_sma for indices i with period - 1 <= i. -/
def smaAt (data : List ℚ) (period : ℕ) (i : ℕ) : ℚ :=
  npMean ((data.drop (i + 1 - period)).take period)

/-- TechnicalIndicators.calculate_sma: returns data unchanged when shorter
than the period; otherwise the trailing mean, with indices below
period - 1 backfilled with the value at period - 1. -/
def calculate_sma (data : List ℚ) (period : ℕ) : List ℚ :=
  if data.length < period then data
  else
    (List.range data.length).map fun i =>
      if i < period - 1 then smaAt data period (period - 1) else smaAt data period i

/-- np.diff: successive differences, one element shorter than the input. -/
def npDiff : List ℚ → List ℚ
  | [] => []
  | [_] => []
  | x :: y :: xs => (y - x) :: npDiff (y :: xs)

/-- Wilder smoothing recurrence avg[i] = (avg[i-1] * (period - 1) + g) / period
from calculate_rsi. -/
def wilderGo (period : ℚ) : ℚ → List ℚ → List ℚ
  | _, [] => []
  | prev, g :: gs =>
    let v := (prev * (period - 1) + g) / period
    v :: wilderGo period v gs

/-- Averages avg[period], avg[period+1], ... of calculate_rsi: the seed is
the plain mean of the first period entries, later entries use Wilder
smoothing over the remaining gains/losses. -/
def rsiAvgs (gs : List ℚ) (period : ℕ) : List ℚ :=
  let a0 := npMean (gs.take period)
  a0 :: wilderGo (period : ℚ) a0 (gs.drop period)

/-- TechnicalIndicators.calculate_rsi: series of length len(data) filled
with the neutral 50 when data is shorter than period + 1. -/
def calculate_rsi (data : List ℚ) (period : ℕ := 14) : List ℚ :=
  if data.length < period + 1 then List.replicate data.length 50
  else
    let deltas := npDiff data
    let gains := deltas.map fun d => if d > 0 then d else 0
    let losses := deltas.map fun d => if d < 0 then -d else 0
    let avgGain := rsiAvgs gains period
    let avgLoss := rsiAvgs losses period
    (List.range data.length).map fun i =>
      if i < period then 50
      else
        let ag := avgGain.getD (i - period) 0
        let al := avgLoss.getD (i - period) 0
        if al = 0 then 100 else 100 - 100 / (1 + ag / al)

/-- np.max of a slice (callers only use nonempty slices). -/
def npMax : List ℚ → ℚ
  | [] => 0
  | x :: xs => xs.foldl max x

/-- np.min of a slice (callers only use nonempty slices). -/
def npMin : List ℚ → ℚ
  | [] => 0
  | x :: xs => xs.foldl min x

/-- Numerical guard constant 1e-10 from the source. -/
def eps10 : ℚ := 1 / 10000000000

/-- np.std of a slice: square root of the mean squared deviation, with the
square root supplied as a parameter sq. -/
def npStd (sq : ℚ → ℚ) (l : List ℚ) : ℚ :=
  sq (npMean (l.map fun x => (x - npMean l) ^ 2))

/-- Result record of calculate_smi. -/
structure SMIResult where
  smi : List ℚ
  signal : List ℚ
  confidence : ℚ
deriving DecidableEq

/-- TechnicalIndicators.calculate_smi: Stochastic Momentum Index with its
signal line and a crossing-based confidence. Inputs shorter than
k_length + d_smoothing * 2 + signal_period give all-zero series and
confidence 0. -/
def calculate_smi (bars : List TopstepBar) (k_length : ℕ := 8)
    (d_smoothing : ℕ := 3) (signal_period : ℕ := 3) : SMIResult :=
  if bars.length < k_length + d_smoothing * 2 + signal_period then
    { smi := List.replicate bars.length 0
      signal := List.replicate bars.length 0
      confidence := 0 }
  else
    let closes := bars.map (·.close)
    let highs := bars.map (·.high)
    let lows := bars.map (·.low)
    let high_k := (List.range bars.length).map fun i =>
      if i < k_length - 1 then 0 else npMax ((highs.drop (i + 1 - k_length)).take k_length)
    let low_k := (List.range bars.length).map fun i =>
      if i < k_length - 1 then 0 else npMin ((lows.drop (i + 1 - k_length)).take k_length)
    let midpoint := List.zipWith (fun h l => (h + l) / 2) high_k low_k
    let rr := List.zipWith (· - ·) closes midpoint
    let hl := List.zipWith (· - ·) high_k low_k
    let dsRR := calculate_ema (calculate_ema rr d_smoothing) d_smoothing
    let dsHL := calculate_ema (calculate_ema hl d_smoothing) d_smoothing
    let smi := (List.range closes.length).map fun i =>
      if dsHL.getD i 0 > eps10 then 200 * (dsRR.getD i 0 / dsHL.getD i 0) else 0
    let signal := calculate_ema smi signal_period
    let current_smi := idxLast smi
    let current_signal := idxLast signal
    let prev_smi := if smi.length > 1 then idxPrev smi else current_smi
    let prev_signal := if signal.length > 1 then idxPrev signal else current_signal
    let confidence :=
      if prev_smi ≤ prev_signal ∧ current_smi > current_signal then
        min (19 / 20) (7 / 10 + |current_smi + 30| / 60 * (1 / 4))
      else if prev_smi ≥ prev_signal ∧ current_smi < current_signal then
        min (19 / 20) (7 / 10 + |current_smi - 30| / 60 * (1 / 4))
      else 0
    { smi := smi, signal := signal, confidence := confidence }

/-- Result record of calculate_macd. -/
structure MACDResult where
  macd : List ℚ
  signal : List ℚ
  histogram : List ℚ
deriving DecidableEq

/-- TechnicalIndicators.calculate_macd: EMA(fast) - EMA(slow), its EMA
signal line, and the difference histogram. -/
def calculate_macd (bars : List TopstepBar) (fast_period : ℕ := 12)
    (slow_period : ℕ := 26) (signal_period : ℕ := 9) : MACDResult :=
  let closes := bars.map (·.close)
  let ema_fast := calculate_ema closes fast_period
  let ema_slow := calculate_ema closes slow_period
  let macd := List.zipWith (· - ·) ema_fast ema_slow
  let signal := calculate_ema macd signal_period
  let histogram := List.zipWith (· - ·) macd signal
  { macd := macd, signal := signal, histogram := histogram }

/-- Result record of calculate_bollinger_bands. -/
structure BollingerBandsResult where
  upper : List ℚ
  middle : List ℚ
  lower : List ℚ
  bandwidth : List ℚ
deriving DecidableEq

/-- TechnicalIndicators.calculate_bollinger_bands. The source has no
short-input guard: the backfill line std[:period - 1] = std[period - 1]
indexes position period - 1, which raises IndexError whenever the input
has fewer than period bars; that partial read is modelled with get?, so a
none result marks the raised exception. -/
def calculate_bollinger_bands (sq : ℚ → ℚ) (bars : List TopstepBar)
    (period : ℕ := 20) (std_dev : ℚ := 2) : Option BollingerBandsResult :=
  let closes := bars.map (·.close)
  let middle := calculate_sma closes period
  let stdRaw := (List.range closes.length).map fun i =>
    if i < period - 1 then 0 else npStd sq ((closes.drop (i + 1 - period)).take period)
  match stdRaw.get? (period - 1) with
  | none => none
  | some fill =>
    let std := (List.range closes.length).map fun i =>
      if i < period - 1 then fill else stdRaw.getD i 0
    let upper := List.zipWith (fun m s => m + s * std_dev) middle std
    let lower := List.zipWith (fun m s => m - s * std_dev) middle std
    let bandwidth := List.zipWith (· / ·) (List.zipWith (· - ·) upper lower) middle
    some { upper := upper, middle := middle, lower := lower, bandwidth := bandwidth }

/-- Result record of calculate_moving_averages. -/
structure MovingAveragesResult where
  sma_fast : List ℚ
  sma_slow : List ℚ
  ema_fast : List ℚ
  ema_slow : List ℚ
deriving DecidableEq

/-- TechnicalIndicators.calculate_moving_averages. -/
def calculate_moving_averages (bars : List TopstepBar) (sma_fast : ℕ := 20)
    (sma_slow : ℕ := 50) (ema_fast : ℕ := 12) (ema_slow : ℕ := 26) :
    MovingAveragesResult :=
  let closes := bars.map (·.close)
  { sma_fast := calculate_sma closes sma_fast
    sma_slow := calculate_sma closes sma_slow
    ema_fast := calculate_ema closes ema_fast
    ema_slow := calculate_ema closes ema_slow }

/-- True-range series of calculate_atr: tr[0] = high - low of the first
bar, later entries the max of the three candidate ranges. -/
def trList (highs lows closes : List ℚ) : List ℚ :=
  (List.range highs.length).map fun i =>
    if i = 0 then highs.getD 0 0 - lows.getD 0 0
    else
      max (highs.getD i 0 - lows.getD i 0)
        (max |highs.getD i 0 - closes.getD (i - 1) 0|
          |lows.getD i 0 - closes.getD (i - 1) 0|)

/-- TechnicalIndicators.calculate_atr: all-zero series when the input is
shorter than period + 1, otherwise the EMA of the true range. -/
def calculate_atr (bars : List TopstepBar) (period : ℕ := 14) : List ℚ :=
  let highs := bars.map (·.high)
  let lows := bars.map (·.low)
  let closes := bars.map (·.close)
  if highs.length < period + 1 then List.replicate highs.length 0
  else calculate_ema (trList highs lows closes) period

/-- Result record of calculate_stoch_rsi. -/
structure StochRSIResult where
  stoch_rsi : List ℚ
  k : List ℚ
  d : List ℚ
deriving DecidableEq

/-- TechnicalIndicators.calculate_stoch_rsi: stochastic oscillator over the
RSI series with double SMA smoothing, all-zero series below the
rsi_period + stoch_period lookback. -/
def calculate_stoch_rsi (bars : List TopstepBar) (rsi_period : ℕ := 14)
    (stoch_period : ℕ := 14) (k_smooth : ℕ := 3) (d_smooth : ℕ := 3) :
    StochRSIResult :=
  let closes := bars.map (·.close)
  if closes.length < rsi_period + stoch_period then
    let empty := List.replicate closes.length (0 : ℚ)
    { stoch_rsi := empty, k := empty, d := empty }
  else
    let rsi := calculate_rsi closes rsi_period
    let stoch_rsi := (List.range rsi.length).map fun i =>
      if i < stoch_period - 1 then 0
      else
        let w := (rsi.drop (i + 1 - stoch_period)).take stoch_period
        let rsi_min := npMin w
        let rsi_max := npMax w
        if rsi_max - rsi_min > eps10 then (rsi.getD i 0 - rsi_min) / (rsi_max - rsi_min)
        else 1 / 2
    let k := calculate_sma (stoch_rsi.map (· * 100)) k_smooth
    let d := calculate_sma k d_smooth
    { stoch_rsi := stoch_rsi.map (· * 100), k := k, d := d }

/-- Result record of calculate_vwap. -/
structure VWAPResult where
  vwap : List ℚ
  upper_band : List ℚ
  lower_band : List ℚ
deriving DecidableEq

/-- Running cumulative sums, np.cumsum. -/
def cumsumGo : ℚ → List ℚ → List ℚ
  | _, [] => []
  | acc, x :: xs => (acc + x) :: cumsumGo (acc + x) xs

/-- np.cumsum over a list of rationals. -/
def npCumsum (l : List ℚ) : List ℚ := cumsumGo 0 l

/-- TechnicalIndicators.calculate_vwap: cumulative volume-weighted typical
price with variance bands; all-zero series below two bars. -/
def calculate_vwap (sq : ℚ → ℚ) (bars : List TopstepBar) (std_dev : ℚ := 2) :
    VWAPResult :=
  if bars.length < 2 then
    let empty := List.replicate bars.length (0 : ℚ)
    { vwap := empty, upper_band := empty, lower_band := empty }
  else
    let typical_prices := bars.map fun b => (b.high + b.low + b.close) / 3
    let volumes := bars.map fun b => (b.volume : ℚ)
    let cumulative_tp_volume := npCumsum (List.zipWith (· * ·) typical_prices volumes)
    let cumulative_volume := npCumsum volumes
    let vwap := List.zipWith (· / ·) cumulative_tp_volume cumulative_volume
    let squared_diff := List.zipWith (fun t v => (t - v) ^ 2) typical_prices vwap
    let cumulative_squared_diff := npCumsum (List.zipWith (· * ·) squared_diff volumes)
    let variance := List.zipWith (· / ·) cumulative_squared_diff cumulative_volume
    let std := variance.map sq
    let upper_band := List.zipWith (fun v s => v + s * std_dev) vwap std
    let lower_band := List.zipWith (fun v s => v - s * std_dev) vwap std
    { vwap := vwap, upper_band := upper_band, lower_band := lower_band }

/-- Result record of calculate_supertrend. -/
structure SuperTrendResult where
  supertrend : List ℚ
  direction : List ℚ
deriving DecidableEq

/-- Main recurrence of calculate_supertrend over indices 1..n-1, carrying
the previous final upper/lower bands and emitting (supertrend, direction)
pairs. -/
def supertrendGo (closes basicU basicL : List ℚ) :
    List ℕ → ℚ → ℚ → List (ℚ × ℚ)
  | [], _, _ => []
  | i :: is, fuPrev, flPrev =>
    let bu := basicU.getD i 0
    let bl := basicL.getD i 0
    let cPrev := closes.getD (i - 1) 0
    let fu := if bu < fuPrev ∨ cPrev > fuPrev then bu else fuPrev
    let fl := if bl > flPrev ∨ cPrev < flPrev then bl else flPrev
    let c := closes.getD i 0
    let pair := if c ≤ fu then (fu, (-1 : ℚ)) else (fl, (1 : ℚ))
    pair :: supertrendGo closes basicU basicL is fu fl

/-- TechnicalIndicators.calculate_supertrend: ATR trailing bands with the
directional flip rule; all-zero series below period + 1 bars. -/
def calculate_supertrend (bars : List TopstepBar) (period : ℕ := 10)
    (multiplier : ℚ := 3) : SuperTrendResult :=
  if bars.length < period + 1 then
    let empty := List.replicate bars.length (0 : ℚ)
    { supertrend := empty, direction := empty }
  else
    let highs := bars.map (·.high)
    let lows := bars.map (·.low)
    let closes := bars.map (·.close)
    let atr := calculate_atr bars period
    let hl_avg := List.zipWith (fun h l => (h + l) / 2) highs lows
    let basic_upper := List.zipWith (fun m a => m + multiplier * a) hl_avg atr
    let basic_lower := List.zipWith (fun m a => m - multiplier * a) hl_avg atr
    let pairs := supertrendGo closes basic_upper basic_lower
      (List.range' 1 (bars.length - 1)) (basic_upper.getD 0 0) (basic_lower.getD 0 0)
    { supertrend := closes.getD 0 0 :: pairs.map Prod.fst
      direction := 1 :: pairs.map Prod.snd }

/-- Result record of calculate_kdj. -/
structure KDJResult where
  k : List ℚ
  d : List ℚ
  j : List ℚ
deriving DecidableEq

/-- TechnicalIndicators.calculate_kdj: stochastic K/D plus J = 3K - 2D;
all-zero series below period bars. -/
def calculate_kdj (bars : List TopstepBar) (period : ℕ := 9)
    (k_smooth : ℕ := 3) (d_smooth : ℕ := 3) : KDJResult :=
  if bars.length < period then
    let empty := List.replicate bars.length (0 : ℚ)
    { k := empty, d := empty, j := empty }
  else
    let closes := bars.map (·.close)
    let highs := bars.map (·.high)
    let lows := bars.map (·.low)
    let k_raw := (List.range bars.length).map fun i =>
      if i < period - 1 then 0
      else
        let highest_high := npMax ((highs.drop (i + 1 - period)).take period)
        let lowest_low := npMin ((lows.drop (i + 1 - period)).take period)
        if highest_high - lowest_low > eps10 then
          100 * (closes.getD i 0 - lowest_low) / (highest_high - lowest_low)
        else 50
    let k := calculate_sma k_raw k_smooth
    let d := calculate_sma k d_smooth
    let j := List.zipWith (fun kv dv => 3 * kv - 2 * dv) k d
    { k := k, d := d, j := j }

/-- One indicator vote: the entries appended in parallel to the signals,
confidences and reasons lists of generate_signal. -/
structure Vote where
  side : Side
  confidence : ℚ
  reason : String
deriving DecidableEq, Inhabited

/-- Result record of generate_signal (the signal, confidence and reason
fields; the auxiliary indicators/votes echo dictionaries are elided). -/
structure GenSignalResult where
  signal : Dir3
  confidence : ℚ
  reason : String
deriving DecidableEq, Inhabited

/-- Votes cast by the SMI block of generate_signal. -/
def smiVotes (bars : List TopstepBar) : List Vote :=
  let r := calculate_smi bars
  let current_smi := idxLast r.smi
  let current_signal := idxLast r.signal
  let prev_smi := idxPrev r.smi
  let prev_signal := idxPrev r.signal
  if prev_smi ≤ prev_signal ∧ current_smi > current_signal ∧ current_smi < -20 then
    [⟨Side.LONG, r.confidence, "SMI cruce alcista"⟩]
  else if prev_smi ≥ prev_signal ∧ current_smi < current_signal ∧ current_smi > 20 then
    [⟨Side.SHORT, r.confidence, "SMI cruce bajista"⟩]
  else []

/-- Votes cast by the MACD block of generate_signal. -/
def macdVotes (bars : List TopstepBar) : List Vote :=
  let r := calculate_macd bars
  let current_macd := idxLast r.macd
  let current_macd_signal := idxLast r.signal
  let prev_macd := idxPrev r.macd
  let prev_macd_signal := idxPrev r.signal
  if prev_macd ≤ prev_macd_signal ∧ current_macd > current_macd_signal then
    [⟨Side.LONG, 3 / 4, "MACD cruce alcista"⟩]
  else if prev_macd ≥ prev_macd_signal ∧ current_macd < current_macd_signal then
    [⟨Side.SHORT, 3 / 4, "MACD cruce bajista"⟩]
  else []

/-- Votes cast by the Bollinger-Bands block of generate_signal; none marks
the IndexError escaping from calculate_bollinger_bands. -/
def bbVotes (sq : ℚ → ℚ) (bars : List TopstepBar) : Option (List Vote) :=
  (calculate_bollinger_bands sq bars).map fun r =>
    let current_price := (bars.getLastD default).close
    let upper := idxLast r.upper
    let lower := idxLast r.lower
    if current_price ≤ lower then
      [⟨Side.LONG, 7 / 10, "Precio en banda inferior"⟩]
    else if current_price ≥ upper then
      [⟨Side.SHORT, 7 / 10, "Precio en banda superior"⟩]
    else []

/-- Votes cast by the Moving-Averages block of generate_signal. -/
def maVotes (bars : List TopstepBar) : List Vote :=
  let r := calculate_moving_averages bars
  let sma_fast := idxLast r.sma_fast
  let sma_slow := idxLast r.sma_slow
  let prev_sma_fast := idxPrev r.sma_fast
  let prev_sma_slow := idxPrev r.sma_slow
  if prev_sma_fast ≤ prev_sma_slow ∧ sma_fast > sma_slow then
    [⟨Side.LONG, 4 / 5, "Golden Cross (SMA)"⟩]
  else if prev_sma_fast ≥ prev_sma_slow ∧ sma_fast < sma_slow then
    [⟨Side.SHORT, 4 / 5, "Death Cross (SMA)"⟩]
  else []

/-- Votes cast by the StochRSI block of generate_signal. -/
def stochRsiVotes (bars : List TopstepBar) : List Vote :=
  let r := calculate_stoch_rsi bars
  let k_value := idxLast r.k
  let d_value := idxLast r.d
  let prev_k := idxPrev r.k
  let prev_d := idxPrev r.d
  if k_value < 20 ∧ d_value < 20 then
    [⟨Side.LONG, 3 / 4, "StochRSI sobreventa"⟩]
  else if k_value > 80 ∧ d_value > 80 then
    [⟨Side.SHORT, 3 / 4, "StochRSI sobrecompra"⟩]
  else if prev_k ≤ prev_d ∧ k_value > d_value ∧ k_value < 50 then
    [⟨Side.LONG, 7 / 10, "StochRSI cruce alcista"⟩]
  else if prev_k ≥ prev_d ∧ k_value < d_value ∧ k_value > 50 then
    [⟨Side.SHORT, 7 / 10, "StochRSI cruce bajista"⟩]
  else []

/-- Votes cast by the VWAP block of generate_signal. -/
def vwapVotes (sq : ℚ → ℚ) (bars : List TopstepBar) : List Vote :=
  let r := calculate_vwap sq bars
  let current_price := (bars.getLastD default).close
  let vwap_value := idxLast r.vwap
  let upper_band := idxLast r.upper_band
  let lower_band := idxLast r.lower_band
  if current_price < lower_band then
    [⟨Side.LONG, 3 / 4, "Precio bajo banda inferior VWAP"⟩]
  else if current_price > upper_band then
    [⟨Side.SHORT, 3 / 4, "Precio sobre banda superior VWAP"⟩]
  else if current_price < vwap_value then
    [⟨Side.LONG, 3 / 5, "Precio bajo VWAP"⟩]
  else if current_price > vwap_value then
    [⟨Side.SHORT, 3 / 5, "Precio sobre VWAP"⟩]
  else []

/-- Votes cast by the SuperTrend block of generate_signal. -/
def supertrendVotes (bars : List TopstepBar) : List Vote :=
  let r := calculate_supertrend bars
  let current_direction := idxLast r.direction
  let prev_direction := idxPrev r.direction
  if prev_direction ≤ 0 ∧ current_direction > 0 then
    [⟨Side.LONG, 17 / 20, "SuperTrend cambio a alcista"⟩]
  else if prev_direction ≥ 0 ∧ current_direction < 0 then
    [⟨Side.SHORT, 17 / 20, "SuperTrend cambio a bajista"⟩]
  else if current_direction > 0 then
    [⟨Side.LONG, 13 / 20, "SuperTrend alcista"⟩]
  else if current_direction < 0 then
    [⟨Side.SHORT, 13 / 20, "SuperTrend bajista"⟩]
  else []

/-- Votes cast by the KDJ block of generate_signal. -/
def kdjVotes (bars : List TopstepBar) : List Vote :=
  let r := calculate_kdj bars
  let k_value := idxLast r.k
  let d_value := idxLast r.d
  let j_value := idxLast r.j
  let prev_k := idxPrev r.k
  let prev_d := idxPrev r.d
  if j_value < 0 then
    [⟨Side.LONG, 4 / 5, "KDJ sobreventa extrema"⟩]
  else if j_value > 100 then
    [⟨Side.SHORT, 4 / 5, "KDJ sobrecompra extrema"⟩]
  else if prev_k ≤ prev_d ∧ k_value > d_value ∧ k_value < 50 then
    [⟨Side.LONG, 3 / 4, "KDJ cruce alcista"⟩]
  else if prev_k ≥ prev_d ∧ k_value < d_value ∧ k_value > 50 then
    [⟨Side.SHORT, 3 / 4, "KDJ cruce bajista"⟩]
  else []

/-- Enabled-indicator flags of generate_signal. -/
structure IndicatorFlags where
  use_smi : Bool
  use_macd : Bool
  use_bb : Bool
  use_ma : Bool
  use_stoch_rsi : Bool
  use_vwap : Bool
  use_supertrend : Bool
  use_kdj : Bool
deriving DecidableEq, Inhabited

/-- All votes cast by the enabled indicator blocks of generate_signal, in
source order; none marks an exception escaping from the Bollinger block. -/
def castVotes (sq : ℚ → ℚ) (bars : List TopstepBar) (f : IndicatorFlags) :
    Option (List Vote) := do
  let v1 := if f.use_smi then smiVotes bars else []
  let v2 := if f.use_macd then macdVotes bars else []
  let v3 ← if f.use_bb then bbVotes sq bars else some []
  let v4 := if f.use_ma then maVotes bars else []
  let v5 := if f.use_stoch_rsi then stochRsiVotes bars else []
  let v6 := if f.use_vwap then vwapVotes sq bars else []
  let v7 := if f.use_supertrend then supertrendVotes bars else []
  let v8 := if f.use_kdj then kdjVotes bars else []
  return v1 ++ v2 ++ v3 ++ v4 ++ v5 ++ v6 ++ v7 ++ v8

/-- Final-signal block of generate_signal (source lines 703-743): majority
vote over the cast votes, with the winning side's mean confidence and
joined reasons. -/
def aggregateVotes (votes : List Vote) : GenSignalResult :=
  if votes = [] then
    { signal := Dir3.NEUTRAL, confidence := 0, reason := "Sin señales claras" }
  else
    let long_count := (votes.filter fun v => v.side == Side.LONG).length
    let short_count := (votes.filter fun v => v.side == Side.SHORT).length
    if long_count > short_count then
      let long_votes := votes.filter fun v => v.side == Side.LONG
      { signal := Dir3.LONG
        confidence := npMean (long_votes.map (·.confidence))
        reason := String.intercalate " + " (long_votes.map (·.reason)) }
    else if short_count > long_count then
      let short_votes := votes.filter fun v => v.side == Side.SHORT
      { signal := Dir3.SHORT
        confidence := npMean (short_votes.map (·.confidence))
        reason := String.intercalate " + " (short_votes.map (·.reason)) }
    else
      { signal := Dir3.NEUTRAL, confidence := 0, reason := "" }

/-- TechnicalIndicators.generate_signal: the insufficient-data early return
below 50 bars, otherwise the enabled blocks cast votes and the final block
aggregates them; none marks an escaped exception. -/
def generate_signal (sq : ℚ → ℚ) (bars : List TopstepBar) (f : IndicatorFlags) :
    Option GenSignalResult :=
  if bars.length < 50 then
    some { signal := Dir3.NEUTRAL, confidence := 0, reason := "Datos insuficientes" }
  else
    (castVotes sq bars f).map aggregateVotes

end TechnicalIndicators

/-- Lifecycle status of a simulated position. -/
inductive Status where
  | OPEN
  | CLOSED
deriving DecidableEq, BEq, Inhabited

/-- Signal dictionary flowing through the engine; optional fields model
dictionary keys that only some producers set (read back with .get and a
default). The position_size key emitted by the bot source is carried but
never read by _open_position. -/
structure SignalDict where
  signal : Dir3
  confidence : ℚ
  source? : Option String := none
  position_size? : Option ℚ := none
  sl_multiplier? : Option ℚ := none
  tp_multiplier? : Option ℚ := none
  reason : String := ""
deriving DecidableEq, Inhabited

/-- Contract metadata used by the engine (db.models Contract). -/
structure Contract where
  tick_size : ℚ
  tick_value : ℚ
deriving DecidableEq, Inhabited

/-- Per-contract bot configuration fields read by the engine. -/
structure ContractBotConfig where
  stop_loss_usd : ℚ
  max_positions : ℕ
deriving DecidableEq, Inhabited

/-- Per-contract indicator configuration fields read by the engine. -/
structure ContractIndicatorConfig where
  flags : TechnicalIndicators.IndicatorFlags
  min_confidence : ℚ
deriving DecidableEq, Inhabited

/-- One simulated position dictionary; exit fields are set on close. -/
structure Position where
  side : Side
  quantity : ℚ
  entry_price : ℚ
  entry_time : String
  stop_loss : ℚ
  take_profit : ℚ
  status : Status
  signal_source : String
  exit_price? : Option ℚ := none
  exit_time? : Option String := none
  exit_reason? : Option String := none
deriving DecidableEq, Inhabited

/-- One trade record appended when a position closes. -/
structure Trade where
  side : Side
  entry_price : ℚ
  exit_price : ℚ
  entry_time : String
  exit_time : String
  pnl : ℚ
  ticks : ℚ
  exit_reason : String
  signal_source : String
deriving DecidableEq, Inhabited

/-- Mutable engine state: positions, trade log, balance and drawdown
bookkeeping. -/
structure EngineState where
  positions : List Position
  trades : List Trade
  balance : ℚ
  peak_balance : ℚ
  max_drawdown : ℚ
deriving DecidableEq, Inhabited

namespace BacktestEngine

/-- Engine state right after __init__: no positions, no trades, balance
100000. -/
def initState : EngineState :=
  { positions := [], trades := [], balance := 100000
    peak_balance := 100000, max_drawdown := 0 }

/-- BacktestEngine._close_position: marks the position CLOSED, computes the
tick and currency P&L, appends the trade, moves the balance and updates
the peak/drawdown bookkeeping. Returns the updated books and the closed
position (the caller puts it back into the positions list, modelling the
in-place dictionary mutation). -/
def _close_position (c : Contract) (st : EngineState) (p : Position)
    (exit_price : ℚ) (exit_time reason : String) : EngineState × Position :=
  let p' := { p with
    status := Status.CLOSED
    exit_price? := some exit_price
    exit_time? := some exit_time
    exit_reason? := some reason }
  let ticks := match p.side with
    | Side.LONG => (exit_price - p.entry_price) / c.tick_size
    | Side.SHORT => (p.entry_price - exit_price) / c.tick_size
  let pnl := ticks * c.tick_value * p.quantity
  let trade : Trade :=
    { side := p.side, entry_price := p.entry_price, exit_price := exit_price
      entry_time := p.entry_time, exit_time := exit_time, pnl := pnl
      ticks := ticks, exit_reason := reason, signal_source := p.signal_source }
  let balance := st.balance + pnl
  let st1 := { st with trades := st.trades ++ [trade], balance := balance }
  let st' :=
    if balance > st.peak_balance then { st1 with peak_balance := balance }
    else
      let drawdown := st.peak_balance - balance
      if drawdown > st.max_drawdown then { st1 with max_drawdown := drawdown }
      else st1
  (st', p')

/-- Per-position exit test of _check_position_exits: the stop-loss branch
is tested first, the take-profit branch only otherwise. -/
def exitCheck (p : Position) (bar : TopstepBar) : Option (String × ℚ) :=
  match p.side with
  | Side.LONG =>
    if bar.low ≤ p.stop_loss then some ("STOP_LOSS", p.stop_loss)
    else if bar.high ≥ p.take_profit then some ("TAKE_PROFIT", p.take_profit)
    else none
  | Side.SHORT =>
    if bar.high ≥ p.stop_loss then some ("STOP_LOSS", p.stop_loss)
    else if bar.low ≤ p.take_profit then some ("TAKE_PROFIT", p.take_profit)
    else none

/-- Loop body of _check_position_exits over the positions list in order,
threading the books state through the closes. -/
def checkExitsGo (c : Contract) (bar : TopstepBar) :
    List Position → EngineState → List Position × EngineState
  | [], st => ([], st)
  | p :: ps, st =>
    if p.status = Status.OPEN then
      match exitCheck p bar with
      | some (reason, price) =>
        let closed := _close_position c st p price bar.time reason
        let rest := checkExitsGo c bar ps closed.1
        (closed.2 :: rest.1, rest.2)
      | none =>
        let rest := checkExitsGo c bar ps st
        (p :: rest.1, rest.2)
    else
      let rest := checkExitsGo c bar ps st
      (p :: rest.1, rest.2)

/-- BacktestEngine._check_position_exits for one bar. -/
def _check_position_exits (c : Contract) (bar : TopstepBar)
    (st : EngineState) : EngineState :=
  let r := checkExitsGo c bar st.positions st
  { r.2 with positions := r.1 }

/-- Configured maximum of OPEN positions; default 3 without a bot config. -/
def max_positions_of (bot_config : Option ContractBotConfig) : ℕ :=
  match bot_config with
  | some bc => bc.max_positions
  | none => 3

/-- Configured stop-loss currency budget; default 150 without a bot
config. -/
def stop_loss_usd_of (bot_config : Option ContractBotConfig) : ℚ :=
  match bot_config with
  | some bc => bc.stop_loss_usd
  | none => 150

/-- Count of positions currently OPEN. -/
def countOpen (ps : List Position) : ℕ :=
  (ps.filter fun p => p.status == Status.OPEN).length

/-- BacktestEngine._open_position: rejects non-directional signals and
openings at or above the configured maximum, otherwise appends a fresh
OPEN position of quantity 1 at the current bar's close with stop and
target derived from the currency risk budget. -/
def _open_position (c : Contract) (bot_config : Option ContractBotConfig)
    (signal : SignalDict) (current_bar : TopstepBar) (st : EngineState) :
    EngineState :=
  if signal.signal ≠ Dir3.LONG ∧ signal.signal ≠ Dir3.SHORT then st
  else
    let open_positions := countOpen st.positions
    let max_positions := max_positions_of bot_config
    if open_positions ≥ max_positions then st
    else
      let sl_multiplier := signal.sl_multiplier?.getD 1
      let tp_multiplier := signal.tp_multiplier?.getD (5 / 2)
      let stop_loss_usd := stop_loss_usd_of bot_config * sl_multiplier
      let ticks_sl := stop_loss_usd / c.tick_value
      let distance_sl := ticks_sl * c.tick_size
      let stop_loss :=
        if signal.signal = Dir3.LONG then current_bar.close - distance_sl
        else current_bar.close + distance_sl
      let take_profit :=
        if signal.signal = Dir3.LONG then current_bar.close + distance_sl * tp_multiplier
        else current_bar.close - distance_sl * tp_multiplier
      let position : Position :=
        { side := if signal.signal = Dir3.LONG then Side.LONG else Side.SHORT
          quantity := 1, entry_price := current_bar.close
          entry_time := current_bar.time, stop_loss := stop_loss
          take_profit := take_profit, status := Status.OPEN
          signal_source := signal.source?.getD "UNKNOWN" }
      { st with positions := st.positions ++ [position] }

/-- Abstract type of a loaded policy model: from the engine balance and the
bar window to an optional signal record. The body of _generate_bot_signal
after its model guard (TradingEnv observation building plus PPO.predict)
is external inference; a none result models the caught exception path. -/
def ModelFn : Type := ℚ → List TopstepBar → Option SignalDict

/-- BacktestEngine._generate_bot_signal: None without a loaded model,
otherwise the model inference result. -/
def _generate_bot_signal (model : Option ModelFn) (balance : ℚ)
    (bars : List TopstepBar) : Option SignalDict :=
  match model with
  | none => none
  | some f => f balance bars

/-- BacktestEngine._generate_indicator_signal: None without an indicator
config; otherwise wraps generate_signal, with the except branch (an
escaped exception) also returning None. -/
def _generate_indicator_signal (indicator_config : Option ContractIndicatorConfig)
    (sq : ℚ → ℚ) (bars : List TopstepBar) : Option SignalDict :=
  match indicator_config with
  | none => none
  | some cfg =>
    match TechnicalIndicators.generate_signal sq bars cfg.flags with
    | none => none
    | some r =>
      some { signal := r.signal, confidence := r.confidence
             source? := some "INDICATORS", reason := r.reason }

/-- Fallback dictionary signal NEUTRAL with confidence 0.0. -/
def neutralSignal : SignalDict := { signal := Dir3.NEUTRAL, confidence := 0 }

/-- BacktestEngine._generate_signals_parallel: per-mode combination of the
bot and indicator signal sources. -/
def _generate_signals_parallel (mode : String) (model : Option ModelFn)
    (indicator_config : Option ContractIndicatorConfig) (sq : ℚ → ℚ)
    (balance : ℚ) (bars : List TopstepBar) : SignalDict :=
  if mode = "bot_only" then
    (_generate_bot_signal model balance bars).getD neutralSignal
  else if mode = "indicators_only" then
    (_generate_indicator_signal indicator_config sq bars).getD neutralSignal
  else if mode = "bot_indicators" then
    match _generate_bot_signal model balance bars,
      _generate_indicator_signal indicator_config sq bars with
    | some b, some i =>
      if b.signal = i.signal ∧ b.signal ≠ Dir3.NEUTRAL then
        { signal := b.signal, confidence := (b.confidence + i.confidence) / 2
          source? := some "BOT_AND_INDICATORS" }
      else neutralSignal
    | _, _ => neutralSignal
  else neutralSignal

/-- Model slot after __init__ (source lines 57-64): a model is only loaded
in the bot modes and with a model path; a load failure (loaded = none) is
caught and leaves the slot empty instead of aborting. -/
def initModel (mode : String) (model_path : Option String)
    (loaded : Option ModelFn) : Option ModelFn :=
  if (mode = "bot_only" ∨ mode = "bot_indicators") ∧ model_path.isSome then loaded
  else none

/-- Fixed analysis window of BacktestEngine.run. -/
def window_size : ℕ := 100

/-- Window slice bars[i - window_size : i + 1] passed to the signal
generators at step i of BacktestEngine.run. -/
def stepWindow (bars : List TopstepBar) (i : ℕ) : List TopstepBar :=
  (bars.drop (i - window_size)).take (i + 1 - (i - window_size))

/-- Signal computed at step i of BacktestEngine.run. -/
def stepSignal (mode : String) (model : Option ModelFn)
    (indicator_config : Option ContractIndicatorConfig) (sq : ℚ → ℚ)
    (balance : ℚ) (bars : List TopstepBar) (i : ℕ) : SignalDict :=
  _generate_signals_parallel mode model indicator_config sq balance
    (stepWindow bars i)

/-- Configured opening confidence threshold; default 0.70 without an
indicator config. -/
def min_confidence_of (indicator_config : Option ContractIndicatorConfig) : ℚ :=
  match indicator_config with
  | some cfg => cfg.min_confidence
  | none => 7 / 10

/-- Loop body of BacktestEngine.run at index i: signal generation, exit
checks, then the confidence-gated opening attempt. -/
def runStep (c : Contract) (mode : String) (model : Option ModelFn)
    (bot_config : Option ContractBotConfig)
    (indicator_config : Option ContractIndicatorConfig) (sq : ℚ → ℚ)
    (bars : List TopstepBar) (st : EngineState) (i : ℕ) : EngineState :=
  let current_bar := bars.getD i default
  let signal := stepSignal mode model indicator_config sq st.balance bars i
  let st1 := _check_position_exits c current_bar st
  if signal.confidence ≥ min_confidence_of indicator_config then
    _open_position c bot_config signal current_bar st1
  else st1

/-- Indices range(window_size, len(bars)) iterated by BacktestEngine.run. -/
def stepIndices (n : ℕ) : List ℕ := (List.range n).drop window_size

/-- Engine state when the bar stream is exhausted, before the forced
closes. -/
def loopState (c : Contract) (mode : String) (model : Option ModelFn)
    (bot_config : Option ContractBotConfig)
    (indicator_config : Option ContractIndicatorConfig) (sq : ℚ → ℚ)
    (bars : List TopstepBar) : EngineState :=
  (stepIndices bars.length).foldl
    (runStep c mode model bot_config indicator_config sq bars) initState

/-- Final loop of BacktestEngine.run over the positions list, force-closing
every position still OPEN at the last bar. -/
def endCloseGo (c : Contract) (last_bar : TopstepBar) :
    List Position → EngineState → List Position × EngineState
  | [], st => ([], st)
  | p :: ps, st =>
    if p.status = Status.OPEN then
      let closed := _close_position c st p last_bar.close last_bar.time "END_OF_BACKTEST"
      let rest := endCloseGo c last_bar ps closed.1
      (closed.2 :: rest.1, rest.2)
    else
      let rest := endCloseGo c last_bar ps st
      (p :: rest.1, rest.2)

/-- Forced closure of all remaining OPEN positions at bars[-1]. -/
def closeAllOpen (c : Contract) (bars : List TopstepBar) (st : EngineState) :
    EngineState :=
  let r := endCloseGo c (bars.getLastD default) st.positions st
  { r.2 with positions := r.1 }

/-- Aggregate statistics record of _calculate_results. The zero-trades
early return omits the gross_profit/gross_loss/trades keys, modelled with
none; profit_factor lives in WithTop so that the top element is the
float(inf) of the source. -/
structure RunResults where
  total_trades : ℕ
  winning_trades : ℕ
  losing_trades : ℕ
  total_pnl : ℚ
  gross_profit? : Option ℚ
  gross_loss? : Option ℚ
  win_rate : ℚ
  profit_factor : WithTop ℚ
  max_drawdown : ℚ
  final_balance : ℚ
  trades_log? : Option (List Trade)
deriving DecidableEq

/-- BacktestEngine._calculate_results. -/
def _calculate_results (st : EngineState) : RunResults :=
  if st.trades = [] then
    { total_trades := 0, winning_trades := 0, losing_trades := 0
      total_pnl := 0, gross_profit? := none, gross_loss? := none
      win_rate := 0, profit_factor := 0, max_drawdown := 0
      final_balance := st.balance, trades_log? := none }
  else
    let winning_trades := st.trades.filter fun t => decide (t.pnl > 0)
    let losing_trades := st.trades.filter fun t => decide (t.pnl < 0)
    let gross_profit := (winning_trades.map (·.pnl)).sum
    let gross_loss := |(losing_trades.map (·.pnl)).sum|
    let profit_factor : WithTop ℚ :=
      if gross_loss > 0 then ((gross_profit / gross_loss : ℚ) : WithTop ℚ) else ⊤
    let win_rate : ℚ :=
      if st.trades = [] then 0
      else (winning_trades.length : ℚ) / (st.trades.length : ℚ)
    { total_trades := st.trades.length, winning_trades := winning_trades.length
      losing_trades := losing_trades.length
      total_pnl := (st.trades.map (·.pnl)).sum
      gross_profit? := some gross_profit, gross_loss? := some gross_loss
      win_rate := win_rate, profit_factor := profit_factor
      max_drawdown := st.max_drawdown, final_balance := st.balance
      trades_log? := some st.trades }

/-- Engine state at the very end of BacktestEngine.run (loop plus forced
closes). -/
def runFinalState (c : Contract) (mode : String) (model : Option ModelFn)
    (bot_config : Option ContractBotConfig)
    (indicator_config : Option ContractIndicatorConfig) (sq : ℚ → ℚ)
    (bars : List TopstepBar) : EngineState :=
  closeAllOpen c bars (loopState c mode model bot_config indicator_config sq bars)

/-- BacktestEngine.run: raises (error) on an empty bar series, otherwise
runs the loop, force-closes and aggregates. -/
def run (c : Contract) (mode : String) (model : Option ModelFn)
    (bot_config : Option ContractBotConfig)
    (indicator_config : Option ContractIndicatorConfig) (sq : ℚ → ℚ)
    (bars : List TopstepBar) : Except String RunResults :=
  if bars = [] then Except.error "No hay datos disponibles para el backtest"
  else
    Except.ok (_calculate_results
      (runFinalState c mode model bot_config indicator_config sq bars))

/-- Pointwise effect of one _check_position_exits pass on a position:
OPEN positions whose exit test fires are closed at the test's price with
the test's reason and the bar's time; everything else is untouched. -/
def exitApply (bar : TopstepBar) (p : Position) : Position :=
  if p.status = Status.OPEN then
    match exitCheck p bar with
    | some (reason, price) =>
      { p with
        status := Status.CLOSED
        exit_price? := some price
        exit_time? := some bar.time
        exit_reason? := some reason }
    | none => p
  else p

/-- Pointwise effect of the end-of-run forced closure on a position: OPEN
positions are closed at the last bar's close with reason END_OF_BACKTEST,
already-closed positions are untouched. -/
def endCloseApply (last_bar : TopstepBar) (p : Position) : Position :=
  if p.status = Status.OPEN then
    { p with
      status := Status.CLOSED
      exit_price? := some last_bar.close
      exit_time? := some last_bar.time
      exit_reason? := some "END_OF_BACKTEST" }
  else p

/-- Tick count of _close_position as a standalone expression. -/
def closeTicks (c : Contract) (p : Position) (exit_price : ℚ) : ℚ :=
  match p.side with
  | Side.LONG => (exit_price - p.entry_price) / c.tick_size
  | Side.SHORT => (p.entry_price - exit_price) / c.tick_size

/-- Trade record appended by _close_position as a standalone expression. -/
def closeTrade (c : Contract) (p : Position) (exit_price : ℚ)
    (exit_time reason : String) : Trade :=
  { side := p.side
    entry_price := p.entry_price
    exit_price := exit_price
    entry_time := p.entry_time
    exit_time := exit_time
    pnl := closeTicks c p exit_price * c.tick_value * p.quantity
    ticks := closeTicks c p exit_price
    exit_reason := reason
    signal_source := p.signal_source }

/-- Bookkeeping relation maintained by every run: one trade per position
that has reached CLOSED. -/
def booksInvariant (st : EngineState) : Prop :=
  st.trades.length + countOpen st.positions = st.positions.length

end BacktestEngine


/-- Gross profit summed by _calculate_results over winning trades. -/
def grossProfitOf (st : EngineState) : ℚ :=
  ((st.trades.filter fun t => decide (t.pnl > 0)).map (·.pnl)).sum

/-- Gross loss summed by _calculate_results over losing trades. -/
def grossLossOf (st : EngineState) : ℚ :=
  |((st.trades.filter fun t => decide (t.pnl < 0)).map (·.pnl)).sum|

/-! Concrete fixtures used by witnesses and counterexamples. -/

/-- Flat bar at price c. -/
def mkBar (c : ℚ) : TopstepBar :=
  { open' := c, high := c, low := c, close := c, volume := 1, time := "t" }

/-- A 101-bar flat series at price 100. -/
def constBars : List TopstepBar := List.replicate 101 (mkBar 100)

/-- The flat series with the last bar bumped to 120: it agrees with
constBars on every index below 100 and differs at index 100. -/
def bumpBars : List TopstepBar := List.replicate 100 (mkBar 100) ++ [mkBar 120]

/-- The flat series extended by one extra bar after index 100. -/
def extendedBars : List TopstepBar := constBars ++ [mkBar 777]

/-- Indicator flag set enabling only the Moving-Averages block. -/
def maOnlyFlags : TechnicalIndicators.IndicatorFlags :=
  { use_smi := false, use_macd := false, use_bb := false, use_ma := true
    use_stoch_rsi := false, use_vwap := false, use_supertrend := false
    use_kdj := false }

/-- Indicator configuration enabling only the Moving-Averages block with
the default 0.70 confidence threshold. -/
def maOnlyConfig : ContractIndicatorConfig :=
  { flags := maOnlyFlags, min_confidence := 7 / 10 }

/-- Contract with tick size 0.25 worth 5 currency units per tick. -/
def demoContract : Contract := { tick_size := 1 / 4, tick_value := 5 }

/-- A 5-bar series, shorter than the default Bollinger period of 20. -/
def fiveBars : List TopstepBar := List.replicate 5 (mkBar 100)

/-- A 50-bar flat series, exactly at the generate_signal data threshold. -/
def fiftyBars : List TopstepBar := List.replicate 50 (mkBar 100)

/-- A trade with exactly zero P&L. -/
def zeroTrade : Trade :=
  { side := Side.LONG, entry_price := 100, exit_price := 100
    entry_time := "t", exit_time := "t", pnl := 0, ticks := 0
    exit_reason := "STOP_LOSS", signal_source := "INDICATORS" }

/-- A trade with positive P&L. -/
def winTrade : Trade :=
  { side := Side.LONG, entry_price := 100, exit_price := 101
    entry_time := "t", exit_time := "t", pnl := 20, ticks := 4
    exit_reason := "TAKE_PROFIT", signal_source := "INDICATORS" }

/-- A LONG position fixture. -/
def demoPosition : Position :=
  { side := Side.LONG, quantity := 1, entry_price := 100, entry_time := "t"
    stop_loss := 925 / 10, take_profit := 11875 / 100
    status := Status.OPEN, signal_source := "INDICATORS" }



/-- A state already holding three OPEN positions. -/
def fullState : EngineState :=
  { BacktestEngine.initState with
    positions := [demoPosition, demoPosition, demoPosition] }

/-- A single LONG vote fixture. -/
def demoVotes : List TechnicalIndicators.Vote :=
  [{ side := Side.LONG, confidence := 4 / 5, reason := "Golden Cross (SMA)" }]

end WebTrading

attribute [local semireducible] Rat.add Rat.mul Rat.inv Rat.sub Rat.ofScientific

namespace WebTrading

open BacktestEngine TechnicalIndicators

set_option maxRecDepth 100000

theorem close_position_spec (c : Contract) (st : EngineState) (p : Position)
    (price : ℚ) (t r : String) :
    (_close_position c st p price t r).1.positions = st.positions ∧
    (_close_position c st p price t r).1.trades = st.trades ++ [closeTrade c p price t r] ∧
    (_close_position c st p price t r).1.balance =
      st.balance + closeTicks c p price * c.tick_value * p.quantity ∧
    (_close_position c st p price t r).2 =
      { p with
        status := Status.CLOSED
        exit_price? := some price
        exit_time? := some t
        exit_reason? := some r } := by
  unfold _close_position closeTrade closeTicks
  cases p.side <;> dsimp only <;> (repeat' split) <;> simp

/-- C2: closing a LONG at entry + k ticks realizes exactly k * tick_value *
quantity; a SHORT realizes (entry - exit) / tick_size * tick_value *
quantity (the negation); the balance moves by exactly the realized P&L. -/
theorem c2_pnl_tick_conversion (c : Contract) (st : EngineState) (p : Position)
    (k : ℤ) (exit_time reason : String) (hts : c.tick_size ≠ 0) :
    (p.side = Side.LONG →
      (_close_position c st p (p.entry_price + k * c.tick_size) exit_time reason).1.trades =
        st.trades ++ [closeTrade c p (p.entry_price + k * c.tick_size) exit_time reason] ∧
      (closeTrade c p (p.entry_price + k * c.tick_size) exit_time reason).pnl =
        k * c.tick_value * p.quantity ∧
      (_close_position c st p (p.entry_price + k * c.tick_size) exit_time reason).1.balance =
        st.balance + k * c.tick_value * p.quantity) ∧
    (p.side = Side.SHORT →
      (_close_position c st p (p.entry_price + k * c.tick_size) exit_time reason).1.trades =
        st.trades ++ [closeTrade c p (p.entry_price + k * c.tick_size) exit_time reason] ∧
      (closeTrade c p (p.entry_price + k * c.tick_size) exit_time reason).pnl =
        -(k * c.tick_value * p.quantity) ∧
      (_close_position c st p (p.entry_price + k * c.tick_size) exit_time reason).1.balance =
        st.balance + -(k * c.tick_value * p.quantity)) ∧
    (∀ exit_price, p.side = Side.SHORT →
      (closeTrade c p exit_price exit_time reason).pnl =
        (p.entry_price - exit_price) / c.tick_size * c.tick_value * p.quantity) := by
  obtain ⟨h1, h2, h3, h4⟩ :=
    close_position_spec c st p (p.entry_price + k * c.tick_size) exit_time reason
  have hticksL : p.side = Side.LONG →
      closeTicks c p (p.entry_price + k * c.tick_size) = k := by
    intro hL
    unfold closeTicks
    rw [hL]
    dsimp only
    rw [add_sub_cancel_left, mul_div_assoc, div_self hts, mul_one]
  have hticksS : p.side = Side.SHORT →
      closeTicks c p (p.entry_price + k * c.tick_size) = -k := by
    intro hS
    unfold closeTicks
    rw [hS]
    dsimp only
    rw [sub_add_cancel_left, neg_div, mul_div_assoc, div_self hts, mul_one]
  refine ⟨fun hL => ⟨h2, ?_, ?_⟩, fun hS => ⟨h2, ?_, ?_⟩, fun xp hS => ?_⟩
  · show closeTicks c p _ * c.tick_value * p.quantity = _
    rw [hticksL hL]
  · rw [h3, hticksL hL]
  · show closeTicks c p _ * c.tick_value * p.quantity = _
    rw [hticksS hS]; ring
  · rw [h3, hticksS hS]; ring_nf
  · show closeTicks c p xp * c.tick_value * p.quantity = _
    unfold closeTicks
    rw [hS]

/-- Witness for C2 at the demo contract, a LONG losing three ticks. -/
theorem c2_pnl_tick_conversion_witness :
    demoContract.tick_size ≠ 0 ∧ demoPosition.side = Side.LONG ∧
    (_close_position demoContract initState demoPosition
        (demoPosition.entry_price + ((-3 : ℤ) : ℚ) * demoContract.tick_size)
        "t2" "STOP_LOSS").1.balance =
      initState.balance + ((-3 : ℤ) : ℚ) * demoContract.tick_value * demoPosition.quantity :=
  ⟨by decide, rfl,
    ((c2_pnl_tick_conversion demoContract initState demoPosition (-3) "t2" "STOP_LOSS"
      (by decide)).1 rfl).2.2⟩




/-- C3 counterexample: a run whose only trade has exactly zero P&L has
gross profit and gross loss both zero, yet reports an infinite profit
factor, not zero. -/
theorem c3_zero_zero_counterexample :
    (_calculate_results { initState with trades := [zeroTrade] }).gross_profit? = some 0 ∧
    (_calculate_results { initState with trades := [zeroTrade] }).gross_loss? = some 0 ∧
    (_calculate_results { initState with trades := [zeroTrade] }).profit_factor = ⊤ ∧
    (_calculate_results { initState with trades := [zeroTrade] }).profit_factor ≠ 0 := by
  refine ⟨?_, ?_, ?_, ?_⟩ <;> decide

/-- C3 (amended): with trades present the profit factor is gross_profit /
gross_loss when gross_loss > 0 and plus-infinity whenever gross_loss = 0
(even with zero gross profit); a zero-trade run reports all trade
statistics as zero with the balance passed through. -/
theorem c3_profit_factor_boundary (st : EngineState) :
    (st.trades = [] →
      (_calculate_results st).total_trades = 0 ∧
      (_calculate_results st).winning_trades = 0 ∧
      (_calculate_results st).losing_trades = 0 ∧
      (_calculate_results st).total_pnl = 0 ∧
      (_calculate_results st).win_rate = 0 ∧
      (_calculate_results st).profit_factor = 0 ∧
      (_calculate_results st).max_drawdown = 0 ∧
      (_calculate_results st).final_balance = st.balance) ∧
    (st.trades ≠ [] →
      (_calculate_results st).gross_profit? = some (grossProfitOf st) ∧
      (_calculate_results st).gross_loss? = some (grossLossOf st) ∧
      (grossLossOf st > 0 →
        (_calculate_results st).profit_factor =
          ((grossProfitOf st / grossLossOf st : ℚ) : WithTop ℚ)) ∧
      (grossLossOf st = 0 → (_calculate_results st).profit_factor = ⊤)) := by
  constructor
  · intro h
    simp [_calculate_results, h]
  · intro h
    refine ⟨?_, ?_, ?_, ?_⟩
    · simp [_calculate_results, h, grossProfitOf]
    · simp [_calculate_results, h, grossLossOf]
    · intro hgl
      rw [grossLossOf] at hgl
      simp [_calculate_results, h, grossProfitOf, grossLossOf, hgl]
    · intro hgl
      rw [grossLossOf] at hgl
      simp [_calculate_results, h, hgl]

/-- Witness for C3 at a zero-trade state and a state with one winning
trade and no losers. -/
theorem c3_profit_factor_boundary_witness :
    ((_calculate_results initState).profit_factor = 0 ∧
      (_calculate_results initState).final_balance = initState.balance) ∧
    ([winTrade] ≠ ([] : List Trade) ∧
      grossLossOf { initState with trades := [winTrade] } = 0 ∧
      (_calculate_results { initState with trades := [winTrade] }).profit_factor = ⊤) :=
  ⟨⟨((c3_profit_factor_boundary initState).1 rfl).2.2.2.2.2.1,
    ((c3_profit_factor_boundary initState).1 rfl).2.2.2.2.2.2.2⟩,
   ⟨by decide, by decide,
    ((c3_profit_factor_boundary { initState with trades := [winTrade] }).2
      (by decide)).2.2.2 (by decide)⟩⟩


/-- C9: the Bollinger-Bands indicator, alone among the indicator family,
has no short-input guard: on any series shorter than its period the
backfill read std[period - 1] is out of bounds and the call raises
(models the IndexError), instead of returning the documented same-length
fallback arrays; the cited guarded indicators do return their documented
fallbacks. -/
theorem c9_bollinger_short_input_raises (sq : ℚ → ℚ) (bars : List TopstepBar)
    (period : ℕ) (std_dev : ℚ) (h : bars.length < period) :
    calculate_bollinger_bands sq bars period std_dev = none ∧
    (∀ data : List ℚ, data.length < period + 1 →
      calculate_rsi data period = List.replicate data.length 50) ∧
    (∀ kbars : List TopstepBar, kbars.length < period →
      calculate_kdj kbars period =
        { k := List.replicate kbars.length 0, d := List.replicate kbars.length 0
          j := List.replicate kbars.length 0 }) := by
  refine ⟨?_, ?_, ?_⟩
  · have hget : ((List.range (bars.map (·.close)).length).map fun i =>
        if i < period - 1 then 0
        else npStd sq (((bars.map (·.close)).drop (i + 1 - period)).take period)).get?
          (period - 1) = none := by
      rw [List.get?_eq_none]
      simp only [List.length_map, List.length_range]
      omega
    unfold calculate_bollinger_bands
    simp only [hget]
  · intro data hd
    unfold calculate_rsi
    rw [if_pos hd]
  · intro kbars hk
    unfold calculate_kdj
    rw [if_pos hk]

/-- Witness for C9: five bars against the default period of 20. -/
theorem c9_bollinger_short_input_raises_witness :
    fiveBars.length < 20 ∧
    calculate_bollinger_bands (fun q => q) fiveBars 20 2 = none :=
  ⟨by decide,
    (c9_bollinger_short_input_raises (fun q => q) fiveBars 20 2 (by decide)).1⟩


theorem checkExitsGo_fst (c : Contract) (bar : TopstepBar) (ps : List Position) :
    ∀ st : EngineState, (checkExitsGo c bar ps st).1 = ps.map (exitApply bar) := by
  induction ps with
  | nil => intro st; rfl
  | cons p ps ih =>
    intro st
    by_cases h : p.status = Status.OPEN
    · cases hec : exitCheck p bar with
      | none => simp [checkExitsGo, exitApply, h, hec, ih]
      | some pr =>
        obtain ⟨reason, price⟩ := pr
        simp [checkExitsGo, exitApply, h, hec, ih,
          (close_position_spec c st p price bar.time reason).2.2.2]
    · simp [checkExitsGo, exitApply, h, ih]

theorem checkExitsGo_snd_positions (c : Contract) (bar : TopstepBar)
    (ps : List Position) :
    ∀ st : EngineState, (checkExitsGo c bar ps st).2.positions = st.positions := by
  induction ps with
  | nil => intro st; rfl
  | cons p ps ih =>
    intro st
    by_cases h : p.status = Status.OPEN
    · cases hec : exitCheck p bar with
      | none => simp [checkExitsGo, h, hec, ih]
      | some pr =>
        obtain ⟨reason, price⟩ := pr
        simp [checkExitsGo, h, hec, ih,
          (close_position_spec c st p price bar.time reason).1]
    · simp [checkExitsGo, h, ih]

theorem check_position_exits_positions (c : Contract) (bar : TopstepBar)
    (st : EngineState) :
    (_check_position_exits c bar st).positions = st.positions.map (exitApply bar) := by
  unfold _check_position_exits
  simp [checkExitsGo_fst]

/-- C5: per-bar exit rule for OPEN positions: a LONG exits at the stop when
bar.low reaches it, otherwise at the target when bar.high reaches it; a
SHORT mirrors this; when one bar spans both thresholds the stop-loss exit
is taken; and one _check_position_exits pass applies exactly this test to
every OPEN position of the list, leaving CLOSED positions untouched. -/
theorem c5_exit_check_rule (p : Position) (bar : TopstepBar) (c : Contract)
    (st : EngineState) :
    (p.side = Side.LONG →
      (bar.low ≤ p.stop_loss → exitCheck p bar = some ("STOP_LOSS", p.stop_loss)) ∧
      (¬ bar.low ≤ p.stop_loss → bar.high ≥ p.take_profit →
        exitCheck p bar = some ("TAKE_PROFIT", p.take_profit)) ∧
      (¬ bar.low ≤ p.stop_loss → ¬ bar.high ≥ p.take_profit → exitCheck p bar = none)) ∧
    (p.side = Side.SHORT →
      (bar.high ≥ p.stop_loss → exitCheck p bar = some ("STOP_LOSS", p.stop_loss)) ∧
      (¬ bar.high ≥ p.stop_loss → bar.low ≤ p.take_profit →
        exitCheck p bar = some ("TAKE_PROFIT", p.take_profit)) ∧
      (¬ bar.high ≥ p.stop_loss → ¬ bar.low ≤ p.take_profit → exitCheck p bar = none)) ∧
    (p.side = Side.LONG → bar.low ≤ p.stop_loss → bar.high ≥ p.take_profit →
      exitCheck p bar = some ("STOP_LOSS", p.stop_loss)) ∧
    (p.side = Side.SHORT → bar.high ≥ p.stop_loss → bar.low ≤ p.take_profit →
      exitCheck p bar = some ("STOP_LOSS", p.stop_loss)) ∧
    (_check_position_exits c bar st).positions = st.positions.map (exitApply bar) ∧
    (p.status = Status.OPEN → exitApply bar p =
      (match exitCheck p bar with
       | some (reason, price) =>
         { p with
           status := Status.CLOSED
           exit_price? := some price
           exit_time? := some bar.time
           exit_reason? := some reason }
       | none => p)) ∧
    (p.status = Status.CLOSED → exitApply bar p = p) := by
  refine ⟨?_, ?_, ?_, ?_, check_position_exits_positions c bar st, ?_, ?_⟩
  · intro hL
    refine ⟨fun hsl => ?_, fun hsl htp => ?_, fun hsl htp => ?_⟩
    · simp [exitCheck, hL, hsl]
    · simp [exitCheck, hL, hsl, htp]
    · simp [exitCheck, hL, hsl]
      exact lt_of_not_le htp
  · intro hS
    refine ⟨fun hsl => ?_, fun hsl htp => ?_, fun hsl htp => ?_⟩
    · simp [exitCheck, hS, hsl]
    · simp [exitCheck, hS, hsl, htp]
    · simp [exitCheck, hS, hsl]
      exact lt_of_not_le htp
  · intro hL hsl htp
    simp [exitCheck, hL, hsl]
  · intro hS hsl htp
    simp [exitCheck, hS, hsl]
  · intro hOpen
    simp [exitApply, hOpen]
  · intro hClosed
    simp [exitApply, hClosed]

/-- Witness for C5: a LONG whose bar spans both stop and target exits at
the stop. -/
theorem c5_exit_check_rule_witness :
    demoPosition.side = Side.LONG ∧
    (8 : ℚ) / 10 * 100 ≤ demoPosition.stop_loss ∧
    exitCheck demoPosition
      { open' := 100, high := 200, low := 80, close := 150, volume := 1, time := "t2" } =
      some ("STOP_LOSS", demoPosition.stop_loss) :=
  ⟨rfl, by decide,
    (c5_exit_check_rule demoPosition
        { open' := 100, high := 200, low := 80, close := 150, volume := 1, time := "t2" }
        demoContract initState).2.2.1 rfl (by decide) (by decide)⟩


/-- C7 counterexample: with a failed model load (slot none) in bot_only
mode, the run on a 101-bar series completes with ok and zero trades —
it does not abort. -/
theorem c7_bot_only_no_abort_counterexample :
    initModel "bot_only" (some "model.zip") none = none ∧
    (run demoContract "bot_only" (initModel "bot_only" (some "model.zip") none)
        none none (fun _ => 0) constBars).isOk = true ∧
    (run demoContract "bot_only" (initModel "bot_only" (some "model.zip") none)
        none none (fun _ => 0) constBars).toOption.map (·.total_trades) = some 0 := by
  refine ⟨rfl, ?_, ?_⟩ <;> decide

/-- C7 (amended): a model-load failure leaves the model slot empty in every
mode, the bot signal source degrades to no-signal (hence always-neutral
step signals in bot_only mode), and the run still completes without
aborting whenever bars exist. -/
theorem c7_model_failure_degrades (mode : String) (model_path : Option String)
    (c : Contract) (bot_config : Option ContractBotConfig)
    (indicator_config : Option ContractIndicatorConfig) (sq : ℚ → ℚ)
    (bars : List TopstepBar) (h : bars ≠ []) :
    initModel mode model_path none = none ∧
    (∀ (balance : ℚ) (w : List TopstepBar),
      _generate_bot_signal (initModel mode model_path none) balance w = none) ∧
    (∀ (balance : ℚ) (i : ℕ),
      stepSignal "bot_only" (initModel "bot_only" model_path none)
        indicator_config sq balance bars i = neutralSignal) ∧
    (run c mode (initModel mode model_path none) bot_config indicator_config
      sq bars).isOk = true := by
  have hnone : ∀ m mp, initModel m mp (none : Option ModelFn) = none := by
    intro m mp
    unfold initModel
    split <;> rfl
  refine ⟨hnone mode model_path, ?_, ?_, ?_⟩
  · intro balance w
    rw [hnone]
    rfl
  · intro balance i
    unfold stepSignal _generate_signals_parallel
    rw [hnone]
    simp [_generate_bot_signal]
  · unfold run
    rw [if_neg h]
    rfl

/-- Witness for C7 on the flat 101-bar series in bot_only mode. -/
theorem c7_model_failure_degrades_witness :
    constBars ≠ [] ∧
    (run demoContract "bot_only" (initModel "bot_only" (some "m.zip") none)
      none none (fun _ => 0) constBars).isOk = true :=
  ⟨by decide,
    (c7_model_failure_degrades "bot_only" (some "m.zip") demoContract none none
      (fun _ => 0) constBars (by decide)).2.2.2⟩

theorem votes_filter_split (votes : List Vote) :
    (votes.filter fun v => v.side == Side.LONG).length +
      (votes.filter fun v => v.side == Side.SHORT).length = votes.length := by
  induction votes with
  | nil => rfl
  | cons v vs ih =>
    cases h : v.side <;>
      simp [List.filter_cons, h, show (Side.LONG == Side.LONG) = true from rfl,
        show (Side.LONG == Side.SHORT) = false from rfl,
        show (Side.SHORT == Side.SHORT) = true from rfl,
        show (Side.SHORT == Side.LONG) = false from rfl] <;> omega

/-- C8: generate_signal aggregates exactly the cast votes; the winner is
the side with a strict majority of all cast votes, taking the mean of the
agreeing confidences and joining the agreeing reasons; no votes or a tie
yield NEUTRAL with confidence 0. -/
theorem c8_vote_aggregation (sq : ℚ → ℚ) (bars : List TopstepBar)
    (f : TechnicalIndicators.IndicatorFlags) (votes : List Vote)
    (h50 : 50 ≤ bars.length) :
    generate_signal sq bars f = (castVotes sq bars f).map aggregateVotes ∧
    aggregateVotes [] =
      { signal := Dir3.NEUTRAL, confidence := 0, reason := "Sin señales claras" } ∧
    ((votes.filter fun v => v.side == Side.LONG).length +
      (votes.filter fun v => v.side == Side.SHORT).length = votes.length) ∧
    (votes ≠ [] →
      (2 * (votes.filter fun v => v.side == Side.LONG).length > votes.length →
        aggregateVotes votes =
          { signal := Dir3.LONG
            confidence :=
              npMean ((votes.filter fun v => v.side == Side.LONG).map (·.confidence))
            reason := String.intercalate " + "
              ((votes.filter fun v => v.side == Side.LONG).map (·.reason)) }) ∧
      (2 * (votes.filter fun v => v.side == Side.SHORT).length > votes.length →
        aggregateVotes votes =
          { signal := Dir3.SHORT
            confidence :=
              npMean ((votes.filter fun v => v.side == Side.SHORT).map (·.confidence))
            reason := String.intercalate " + "
              ((votes.filter fun v => v.side == Side.SHORT).map (·.reason)) }) ∧
      ((votes.filter fun v => v.side == Side.LONG).length =
          (votes.filter fun v => v.side == Side.SHORT).length →
        aggregateVotes votes =
          { signal := Dir3.NEUTRAL, confidence := 0, reason := "" })) := by
  refine ⟨?_, rfl, votes_filter_split votes, fun hne => ⟨?_, ?_, ?_⟩⟩
  · unfold generate_signal
    rw [if_neg (by omega)]
  · intro hmaj
    have hsplit := votes_filter_split votes
    have hgt : (votes.filter fun v => v.side == Side.SHORT).length <
        (votes.filter fun v => v.side == Side.LONG).length := by omega
    unfold aggregateVotes
    rw [if_neg hne]
    dsimp only
    rw [if_pos hgt]
  · intro hmaj
    have hsplit := votes_filter_split votes
    have hgt : (votes.filter fun v => v.side == Side.LONG).length <
        (votes.filter fun v => v.side == Side.SHORT).length := by omega
    unfold aggregateVotes
    rw [if_neg hne]
    dsimp only
    rw [if_neg (by omega), if_pos hgt]
  · intro htie
    unfold aggregateVotes
    rw [if_neg hne]
    dsimp only
    rw [if_neg (by omega), if_neg (by omega)]

/-- Witness for C8: a single LONG vote on a 50-bar series wins. -/
theorem c8_vote_aggregation_witness :
    (50 ≤ fiftyBars.length ∧ demoVotes ≠ []) ∧
    aggregateVotes demoVotes =
      { signal := Dir3.LONG
        confidence :=
          npMean ((demoVotes.filter fun v => v.side == Side.LONG).map (·.confidence))
        reason := String.intercalate " + "
          ((demoVotes.filter fun v => v.side == Side.LONG).map (·.reason)) } :=
  ⟨⟨by decide, by decide⟩,
    ((c8_vote_aggregation (fun q => q) fiftyBars maOnlyFlags demoVotes
      (by decide)).2.2.2 (by decide)).1 (by decide)⟩

/-- C1 counterexample: two runs whose bar series agree on every index
below 100 but differ at index 100 produce different signals at step 100 —
the step-i signal does consult bar i. -/
theorem c1_current_bar_dependence_counterexample :
    constBars.take 100 = bumpBars.take 100 ∧
    stepSignal "indicators_only" none (some maOnlyConfig) (fun _ => 0) 100000
        constBars 100 ≠
      stepSignal "indicators_only" none (some maOnlyConfig) (fun _ => 0) 100000
        bumpBars 100 := by
  constructor
  · decide
  · decide

/-- C1 (amended): the signal and the whole step at index i depend only on
bars with index at most i: two runs agreeing on the first i + 1 bars
generate the same step-i signal and the same step-i state transition, so
altering bars after index i never changes the decision at step i. -/
theorem c1_window_causality (mode : String) (model : Option ModelFn)
    (indicator_config : Option ContractIndicatorConfig) (sq : ℚ → ℚ)
    (balance : ℚ) (bars bars' : List TopstepBar) (i : ℕ)
    (_hw : window_size ≤ i) (h : bars.take (i + 1) = bars'.take (i + 1)) :
    stepSignal mode model indicator_config sq balance bars i =
      stepSignal mode model indicator_config sq balance bars' i ∧
    (∀ (c : Contract) (bot_config : Option ContractBotConfig) (st : EngineState),
      runStep c mode model bot_config indicator_config sq bars st i =
        runStep c mode model bot_config indicator_config sq bars' st i) := by
  have hwin : ∀ l : List TopstepBar,
      stepWindow l i = (l.take (i + 1)).drop (i - window_size) := by
    intro l
    unfold stepWindow
    rw [List.drop_take]
  have hsw : stepWindow bars i = stepWindow bars' i := by
    rw [hwin, hwin, h]
  have hsig : ∀ b : ℚ,
      stepSignal mode model indicator_config sq b bars i =
        stepSignal mode model indicator_config sq b bars' i := by
    intro b
    unfold stepSignal
    rw [hsw]
  refine ⟨hsig balance, ?_⟩
  intro c bot_config st
  have hbar : bars.getD i default = bars'.getD i default := by
    rw [List.getD_eq_getElem?_getD, List.getD_eq_getElem?_getD,
      ← List.getElem?_take_of_lt (l := bars) (n := i + 1) (Nat.lt_succ_self i),
      ← List.getElem?_take_of_lt (l := bars') (n := i + 1) (Nat.lt_succ_self i), h]
  unfold runStep
  rw [hsig st.balance, hbar]

/-- Witness for C1: extending the series beyond index 100 leaves the
step-100 signal unchanged. -/
theorem c1_window_causality_witness :
    (window_size ≤ 100 ∧ constBars.take 101 = extendedBars.take 101) ∧
    stepSignal "indicators_only" none (some maOnlyConfig) (fun _ => 0) 100000
        constBars 100 =
      stepSignal "indicators_only" none (some maOnlyConfig) (fun _ => 0) 100000
        extendedBars 100 :=
  ⟨⟨by decide, by decide⟩,
    (c1_window_causality "indicators_only" none (some maOnlyConfig) (fun _ => 0)
      100000 constBars extendedBars 100 (by decide) (by decide)).1⟩


theorem countOpen_nil : countOpen [] = 0 := rfl

theorem countOpen_cons (p : Position) (ps : List Position) :
    countOpen (p :: ps) =
      (if p.status = Status.OPEN then 1 else 0) + countOpen ps := by
  cases hs : p.status <;>
    simp [countOpen, List.filter_cons, hs,
      show (Status.OPEN == Status.OPEN) = true from rfl,
      show (Status.CLOSED == Status.OPEN) = false from rfl] <;> omega

theorem countOpen_append (a b : List Position) :
    countOpen (a ++ b) = countOpen a + countOpen b := by
  simp [countOpen, List.filter_append]

theorem exitApply_status (bar : TopstepBar) (p : Position) :
    (exitApply bar p).status = Status.OPEN → p.status = Status.OPEN := by
  unfold exitApply
  by_cases h : p.status = Status.OPEN
  · intro _; exact h
  · simp [h]

theorem exitApply_quantity (bar : TopstepBar) (p : Position) :
    (exitApply bar p).quantity = p.quantity := by
  unfold exitApply
  by_cases h : p.status = Status.OPEN
  · cases hec : exitCheck p bar with
    | none => simp [h, hec]
    | some pr => obtain ⟨r0, q0⟩ := pr; simp [h, hec]
  · simp [h]

theorem endCloseApply_status (b : TopstepBar) (p : Position) :
    (endCloseApply b p).status = Status.CLOSED := by
  unfold endCloseApply
  cases h : p.status <;> simp [h]

theorem endCloseApply_quantity (b : TopstepBar) (p : Position) :
    (endCloseApply b p).quantity = p.quantity := by
  unfold endCloseApply
  cases h : p.status <;> simp [h]

theorem countOpen_map_le (f : Position → Position)
    (hf : ∀ p, (f p).status = Status.OPEN → p.status = Status.OPEN) :
    ∀ ps : List Position, countOpen (ps.map f) ≤ countOpen ps := by
  intro ps
  induction ps with
  | nil => simp [countOpen_nil]
  | cons p ps ih =>
    rw [List.map_cons, countOpen_cons, countOpen_cons]
    by_cases h : (f p).status = Status.OPEN
    · rw [if_pos h, if_pos (hf p h)]
      omega
    · rw [if_neg h]
      split <;> omega

theorem countOpen_map_endClose (b : TopstepBar) (ps : List Position) :
    countOpen (ps.map (endCloseApply b)) = 0 := by
  induction ps with
  | nil => rfl
  | cons p ps ih =>
    rw [List.map_cons, countOpen_cons, if_neg (by simp [endCloseApply_status]), ih]

theorem checkExitsGo_books (c : Contract) (bar : TopstepBar) (ps : List Position) :
    ∀ st : EngineState,
      (checkExitsGo c bar ps st).2.trades.length + countOpen ((checkExitsGo c bar ps st).1) =
        st.trades.length + countOpen ps := by
  induction ps with
  | nil => intro st; simp [checkExitsGo, countOpen_nil]
  | cons p ps ih =>
    intro st
    by_cases h : p.status = Status.OPEN
    · cases hec : exitCheck p bar with
      | none =>
        have hrec := ih st
        simp only [checkExitsGo, if_pos h, hec]
        rw [countOpen_cons, countOpen_cons, if_pos h]
        omega
      | some pr =>
        obtain ⟨r0, q0⟩ := pr
        have hclose := close_position_spec c st p q0 bar.time r0
        have hrec := ih (_close_position c st p q0 bar.time r0).1
        have hlen : (_close_position c st p q0 bar.time r0).1.trades.length =
            st.trades.length + 1 := by
          rw [hclose.2.1]
          simp
        simp only [checkExitsGo, if_pos h, hec]
        rw [countOpen_cons, countOpen_cons, if_pos h,
          if_neg (by rw [hclose.2.2.2]; simp)]
        omega
    · have hrec := ih st
      simp only [checkExitsGo, if_neg h]
      rw [countOpen_cons, countOpen_cons, if_neg h]
      omega

theorem check_position_exits_spec (c : Contract) (bar : TopstepBar) (st : EngineState) :
    (_check_position_exits c bar st).positions = st.positions.map (exitApply bar) ∧
    (_check_position_exits c bar st).trades.length +
        countOpen (_check_position_exits c bar st).positions =
      st.trades.length + countOpen st.positions := by
  constructor
  · exact check_position_exits_positions c bar st
  · unfold _check_position_exits
    have := checkExitsGo_books c bar st.positions st
    simpa using this

theorem endCloseGo_fst (c : Contract) (b : TopstepBar) (ps : List Position) :
    ∀ st : EngineState, (endCloseGo c b ps st).1 = ps.map (endCloseApply b) := by
  induction ps with
  | nil => intro st; rfl
  | cons p ps ih =>
    intro st
    by_cases h : p.status = Status.OPEN
    · simp [endCloseGo, endCloseApply, h, ih,
        (close_position_spec c st p b.close b.time "END_OF_BACKTEST").2.2.2]
    · simp [endCloseGo, endCloseApply, h, ih]

theorem endCloseGo_books (c : Contract) (b : TopstepBar) (ps : List Position) :
    ∀ st : EngineState,
      (endCloseGo c b ps st).2.trades.length + countOpen ((endCloseGo c b ps st).1) =
        st.trades.length + countOpen ps := by
  induction ps with
  | nil => intro st; simp [endCloseGo, countOpen_nil]
  | cons p ps ih =>
    intro st
    by_cases h : p.status = Status.OPEN
    · have hclose := close_position_spec c st p b.close b.time "END_OF_BACKTEST"
      have hrec := ih (_close_position c st p b.close b.time "END_OF_BACKTEST").1
      have hlen : (_close_position c st p b.close b.time "END_OF_BACKTEST").1.trades.length =
          st.trades.length + 1 := by
        rw [hclose.2.1]
        simp
      simp only [endCloseGo, if_pos h]
      rw [countOpen_cons, countOpen_cons, if_pos h,
        if_neg (by rw [hclose.2.2.2]; simp)]
      omega
    · have hrec := ih st
      simp only [endCloseGo, if_neg h]
      rw [countOpen_cons, countOpen_cons, if_neg h]
      omega

theorem closeAllOpen_spec (c : Contract) (bars : List TopstepBar) (st : EngineState) :
    (closeAllOpen c bars st).positions =
      st.positions.map (endCloseApply (bars.getLastD default)) ∧
    (closeAllOpen c bars st).trades.length +
        countOpen (closeAllOpen c bars st).positions =
      st.trades.length + countOpen st.positions := by
  constructor
  · unfold closeAllOpen
    simp [endCloseGo_fst]
  · unfold closeAllOpen
    have := endCloseGo_books c (bars.getLastD default) st.positions st
    simpa using this

theorem open_position_cases (c : Contract) (bot_config : Option ContractBotConfig)
    (signal : SignalDict) (bar : TopstepBar) (st : EngineState) :
    _open_position c bot_config signal bar st = st ∨
    ∃ q : Position,
      _open_position c bot_config signal bar st =
        { st with positions := st.positions ++ [q] } ∧
      q.quantity = 1 ∧ q.entry_price = bar.close ∧ q.status = Status.OPEN ∧
      countOpen st.positions < max_positions_of bot_config := by
  unfold _open_position
  by_cases hdir : signal.signal ≠ Dir3.LONG ∧ signal.signal ≠ Dir3.SHORT
  · rw [if_pos hdir]
    exact Or.inl rfl
  · rw [if_neg hdir]
    dsimp only
    by_cases hfull : countOpen st.positions ≥ max_positions_of bot_config
    · rw [if_pos hfull]
      exact Or.inl rfl
    · rw [if_neg hfull]
      right
      exact ⟨_, rfl, rfl, rfl, rfl, by omega⟩

theorem open_position_reject (c : Contract) (bot_config : Option ContractBotConfig)
    (signal : SignalDict) (bar : TopstepBar) (st : EngineState)
    (hfull : countOpen st.positions ≥ max_positions_of bot_config) :
    _open_position c bot_config signal bar st = st := by
  unfold _open_position
  by_cases hdir : signal.signal ≠ Dir3.LONG ∧ signal.signal ≠ Dir3.SHORT
  · rw [if_pos hdir]
  · rw [if_neg hdir]
    dsimp only
    rw [if_pos hfull]

theorem runStep_spec (c : Contract) (mode : String) (model : Option ModelFn)
    (bot_config : Option ContractBotConfig)
    (indicator_config : Option ContractIndicatorConfig) (sq : ℚ → ℚ)
    (bars : List TopstepBar) (st : EngineState) (i : ℕ) :
    (runStep c mode model bot_config indicator_config sq bars st i).positions.length ≤
      st.positions.length + 1 ∧
    (booksInvariant st →
      booksInvariant (runStep c mode model bot_config indicator_config sq bars st i)) ∧
    (countOpen st.positions ≤ max_positions_of bot_config →
      countOpen (runStep c mode model bot_config indicator_config sq bars st i).positions ≤
        max_positions_of bot_config) ∧
    ((∀ p ∈ st.positions, p.quantity = 1) →
      ∀ p ∈ (runStep c mode model bot_config indicator_config sq bars st i).positions,
        p.quantity = 1) := by
  set bar := bars.getD i default with hbar
  set sg := stepSignal mode model indicator_config sq st.balance bars i with hsg
  obtain ⟨hpos1, hbooks1⟩ := check_position_exits_spec c bar st
  set st1 := _check_position_exits c bar st with hst1
  have hlen1 : st1.positions.length = st.positions.length := by
    rw [hpos1, List.length_map]
  have hopen1 : countOpen st1.positions ≤ countOpen st.positions := by
    rw [hpos1]
    exact countOpen_map_le _ (exitApply_status bar) st.positions
  have hq1 : (∀ p ∈ st.positions, p.quantity = 1) → ∀ p ∈ st1.positions, p.quantity = 1 := by
    intro hq p hp
    rw [hpos1] at hp
    obtain ⟨p0, hp0, rfl⟩ := List.mem_map.mp hp
    rw [exitApply_quantity]
    exact hq p0 hp0
  have hstep : runStep c mode model bot_config indicator_config sq bars st i =
      (if sg.confidence ≥ min_confidence_of indicator_config then
        _open_position c bot_config sg bar st1 else st1) := rfl
  have hmain : ∀ st2 : EngineState,
      st2 = (if sg.confidence ≥ min_confidence_of indicator_config then
        _open_position c bot_config sg bar st1 else st1) →
      st2.positions.length ≤ st.positions.length + 1 ∧
      (booksInvariant st → booksInvariant st2) ∧
      (countOpen st.positions ≤ max_positions_of bot_config →
        countOpen st2.positions ≤ max_positions_of bot_config) ∧
      ((∀ p ∈ st.positions, p.quantity = 1) → ∀ p ∈ st2.positions, p.quantity = 1) := by
    intro st2 hst2
    by_cases hc : sg.confidence ≥ min_confidence_of indicator_config
    · rw [if_pos hc] at hst2
      rcases open_position_cases c bot_config sg bar st1 with hsame | ⟨q, heq, hq, _, hqopen, hlt⟩
      · subst hst2
        rw [hsame]
        refine ⟨by omega, ?_, fun hM => le_trans hopen1 hM, hq1⟩
        intro hinv
        unfold booksInvariant at hinv ⊢
        omega
      · subst hst2
        rw [heq]
        refine ⟨?_, ?_, ?_, ?_⟩
        · dsimp only
          rw [List.length_append, List.length_singleton]
          omega
        · intro hinv
          unfold booksInvariant at hinv ⊢
          dsimp only
          rw [List.length_append, List.length_singleton, countOpen_append,
            countOpen_cons, if_pos hqopen, countOpen_nil]
          omega
        · intro hM
          dsimp only
          rw [countOpen_append, countOpen_cons, if_pos hqopen, countOpen_nil]
          omega
        · intro hq0 p hp
          dsimp only at hp
          rw [List.mem_append] at hp
          rcases hp with hp | hp
          · exact hq1 hq0 p hp
          · rw [List.mem_singleton] at hp
            subst hp
            exact hq
    · rw [if_neg hc] at hst2
      subst hst2
      refine ⟨by omega, ?_, fun hM => le_trans hopen1 hM, hq1⟩
      intro hinv
      unfold booksInvariant at hinv ⊢
      omega
  rw [hstep]
  exact hmain _ rfl


theorem foldl_preserve {α : Type} (f : EngineState → α → EngineState)
    (P : EngineState → Prop) (hf : ∀ st a, P st → P (f st a)) :
    ∀ (l : List α) (st : EngineState), P st → P (l.foldl f st) := by
  intro l
  induction l with
  | nil => intro st h; exact h
  | cons a l ih =>
    intro st h
    exact ih _ (hf st a h)

theorem initState_books : booksInvariant initState := rfl

theorem loopState_books (c : Contract) (mode : String) (model : Option ModelFn)
    (bot_config : Option ContractBotConfig)
    (indicator_config : Option ContractIndicatorConfig) (sq : ℚ → ℚ)
    (bars : List TopstepBar) :
    booksInvariant (loopState c mode model bot_config indicator_config sq bars) :=
  foldl_preserve _ booksInvariant
    (fun st i h =>
      (runStep_spec c mode model bot_config indicator_config sq bars st i).2.1 h)
    _ initState initState_books

theorem loopState_quantity (c : Contract) (mode : String) (model : Option ModelFn)
    (bot_config : Option ContractBotConfig)
    (indicator_config : Option ContractIndicatorConfig) (sq : ℚ → ℚ)
    (bars : List TopstepBar) :
    ∀ p ∈ (loopState c mode model bot_config indicator_config sq bars).positions,
      p.quantity = 1 :=
  foldl_preserve _ (fun st => ∀ p ∈ st.positions, p.quantity = 1)
    (fun st i h =>
      (runStep_spec c mode model bot_config indicator_config sq bars st i).2.2.2 h)
    _ initState (by intro p hp; simp [initState] at hp)

/-- C4 counterexample: in a concrete run a position that is still OPEN when
the bar stream is exhausted ends the run with exit reason END_OF_BACKTEST,
not END_OF_SIMULATION. -/
theorem c4_exit_reason_counterexample :
    ((loopState demoContract "indicators_only" none none (some maOnlyConfig)
        (fun _ => 0) bumpBars).positions.getD 0 default).status = Status.OPEN ∧
    ((runFinalState demoContract "indicators_only" none none (some maOnlyConfig)
        (fun _ => 0) bumpBars).positions.getD 0 default).exit_reason? =
      some "END_OF_BACKTEST" ∧
    ((runFinalState demoContract "indicators_only" none none (some maOnlyConfig)
        (fun _ => 0) bumpBars).positions.getD 0 default).exit_reason? ≠
      some "END_OF_SIMULATION" := by
  refine ⟨?_, ?_, ?_⟩ <;> decide

/-- C4 (amended): at the end of every run each position is CLOSED, the
final positions are exactly the loop-end positions with every still-OPEN
one force-closed at the final bar's close with reason END_OF_BACKTEST,
and the trade count equals the number of positions ever opened. -/
theorem c4_forced_closure (c : Contract) (mode : String) (model : Option ModelFn)
    (bot_config : Option ContractBotConfig)
    (indicator_config : Option ContractIndicatorConfig) (sq : ℚ → ℚ)
    (bars : List TopstepBar) (_h : bars ≠ []) :
    (runFinalState c mode model bot_config indicator_config sq bars).positions =
      (loopState c mode model bot_config indicator_config sq bars).positions.map
        (endCloseApply (bars.getLastD default)) ∧
    (∀ p ∈ (runFinalState c mode model bot_config indicator_config sq bars).positions,
      p.status = Status.CLOSED) ∧
    (∀ p : Position, p.status = Status.OPEN →
      endCloseApply (bars.getLastD default) p =
        { p with
          status := Status.CLOSED
          exit_price? := some (bars.getLastD default).close
          exit_time? := some (bars.getLastD default).time
          exit_reason? := some "END_OF_BACKTEST" }) ∧
    (runFinalState c mode model bot_config indicator_config sq bars).trades.length =
      (runFinalState c mode model bot_config indicator_config sq bars).positions.length := by
  have hloop := loopState_books c mode model bot_config indicator_config sq bars
  obtain ⟨hfs, hbooks⟩ := closeAllOpen_spec c bars
    (loopState c mode model bot_config indicator_config sq bars)
  have hfs' : (runFinalState c mode model bot_config indicator_config sq bars).positions =
      (loopState c mode model bot_config indicator_config sq bars).positions.map
        (endCloseApply (bars.getLastD default)) := hfs
  refine ⟨hfs', ?_, ?_, ?_⟩
  · intro p hp
    rw [hfs'] at hp
    obtain ⟨p0, _, rfl⟩ := List.mem_map.mp hp
    exact endCloseApply_status _ p0
  · intro p hOpen
    unfold endCloseApply
    rw [if_pos hOpen]
  · have hzero : countOpen (closeAllOpen c bars
        (loopState c mode model bot_config indicator_config sq bars)).positions = 0 := by
      rw [hfs]
      exact countOpen_map_endClose _ _
    have hlenC : (closeAllOpen c bars
          (loopState c mode model bot_config indicator_config sq bars)).positions.length =
        (loopState c mode model bot_config indicator_config sq bars).positions.length := by
      rw [hfs, List.length_map]
    unfold booksInvariant at hloop
    show (closeAllOpen c bars
        (loopState c mode model bot_config indicator_config sq bars)).trades.length =
      (closeAllOpen c bars
        (loopState c mode model bot_config indicator_config sq bars)).positions.length
    omega

/-- Witness for C4 on the flat series. -/
theorem c4_forced_closure_witness :
    constBars ≠ [] ∧
    (runFinalState demoContract "indicators_only" none none (some maOnlyConfig)
        (fun _ => 0) constBars).trades.length =
      (runFinalState demoContract "indicators_only" none none (some maOnlyConfig)
        (fun _ => 0) constBars).positions.length :=
  ⟨by decide,
    (c4_forced_closure demoContract "indicators_only" none none (some maOnlyConfig)
      (fun _ => 0) constBars (by decide)).2.2.2⟩

/-- C6: an opening attempt with the OPEN-position count at or above the
configured maximum is rejected unchanged, and along every prefix of every
run the OPEN-position count never exceeds the configured maximum. -/
theorem c6_open_position_limit (c : Contract) (mode : String) (model : Option ModelFn)
    (bot_config : Option ContractBotConfig)
    (indicator_config : Option ContractIndicatorConfig) (sq : ℚ → ℚ)
    (bars : List TopstepBar) (signal : SignalDict) (bar : TopstepBar)
    (st : EngineState) (n : ℕ)
    (hfull : countOpen st.positions ≥ max_positions_of bot_config) :
    _open_position c bot_config signal bar st = st ∧
    countOpen (((stepIndices bars.length).take n).foldl
        (runStep c mode model bot_config indicator_config sq bars) initState).positions ≤
      max_positions_of bot_config := by
  constructor
  · exact open_position_reject c bot_config signal bar st hfull
  · exact foldl_preserve _
      (fun st0 => countOpen st0.positions ≤ max_positions_of bot_config)
      (fun st0 i h =>
        (runStep_spec c mode model bot_config indicator_config sq bars st0 i).2.2.1 h)
      _ initState (by simp [initState, countOpen_nil])

/-- Witness for C6: three open positions against the default maximum 3. -/
theorem c6_open_position_limit_witness :
    countOpen fullState.positions ≥ max_positions_of none ∧
    _open_position demoContract none neutralSignal (mkBar 100) fullState = fullState :=
  ⟨by decide,
    (c6_open_position_limit demoContract "indicators_only" none none
      (some maOnlyConfig) (fun _ => 0) constBars neutralSignal (mkBar 100)
      fullState 0 (by decide)).1⟩

/-- C10: every opened position has quantity exactly 1 and entry price
exactly the evaluated bar's close, at most one position is opened per
evaluated bar, and every position of a finished run has quantity 1. -/
theorem c10_unit_quantity_close_entry :
    (∀ (c : Contract) (bot_config : Option ContractBotConfig) (signal : SignalDict)
      (bar : TopstepBar) (st : EngineState),
      _open_position c bot_config signal bar st = st ∨
      ∃ q : Position,
        _open_position c bot_config signal bar st =
          { st with positions := st.positions ++ [q] } ∧
        q.quantity = 1 ∧ q.entry_price = bar.close ∧ q.status = Status.OPEN) ∧
    (∀ (c : Contract) (mode : String) (model : Option ModelFn)
      (bot_config : Option ContractBotConfig)
      (indicator_config : Option ContractIndicatorConfig) (sq : ℚ → ℚ)
      (bars : List TopstepBar) (st : EngineState) (i : ℕ),
      (runStep c mode model bot_config indicator_config sq bars st i).positions.length ≤
        st.positions.length + 1) ∧
    (∀ (c : Contract) (mode : String) (model : Option ModelFn)
      (bot_config : Option ContractBotConfig)
      (indicator_config : Option ContractIndicatorConfig) (sq : ℚ → ℚ)
      (bars : List TopstepBar),
      ∀ p ∈ (runFinalState c mode model bot_config indicator_config sq bars).positions,
        p.quantity = 1) := by
  refine ⟨?_, ?_, ?_⟩
  · intro c bot_config signal bar st
    rcases open_position_cases c bot_config signal bar st with h | ⟨q, heq, hq, hep, hop, _⟩
    · exact Or.inl h
    · exact Or.inr ⟨q, heq, hq, hep, hop⟩
  · intro c mode model bot_config indicator_config sq bars st i
    exact (runStep_spec c mode model bot_config indicator_config sq bars st i).1
  · intro c mode model bot_config indicator_config sq bars p hp
    have hloopq := loopState_quantity c mode model bot_config indicator_config sq bars
    obtain ⟨hfs, _⟩ := closeAllOpen_spec c bars
      (loopState c mode model bot_config indicator_config sq bars)
    have : (runFinalState c mode model bot_config indicator_config sq bars).positions =
        (loopState c mode model bot_config indicator_config sq bars).positions.map
          (endCloseApply (bars.getLastD default)) := hfs
    rw [this] at hp
    obtain ⟨p0, hp0, rfl⟩ := List.mem_map.mp hp
    rw [endCloseApply_quantity]
    exact hloopq p0 hp0

/-- Witness for C10: the position opened in the bump-bar run has quantity
1. -/
theorem c10_unit_quantity_close_entry_witness :
    ((runFinalState demoContract "indicators_only" none none (some maOnlyConfig)
        (fun _ => 0) bumpBars).positions.getD 0 default ∈
      (runFinalState demoContract "indicators_only" none none (some maOnlyConfig)
        (fun _ => 0) bumpBars).positions) ∧
    ((runFinalState demoContract "indicators_only" none none (some maOnlyConfig)
        (fun _ => 0) bumpBars).positions.getD 0 default).quantity = 1 :=
  ⟨by decide,
    c10_unit_quantity_close_entry.2.2 demoContract "indicators_only" none none
      (some maOnlyConfig) (fun _ => 0) bumpBars _ (by decide)⟩

end WebTrading
